import Mathlib

/-!
Verification of the WhatsApp realtime-checker clients.

Shallow embedding of the client logic found in
`src/examples/whatsapp_realtime_checker_javascript.js`,
`src/examples/whatsapp_realtime_checker_go.go` and
`src/examples/whatsapp_realtime_checker_php.php`.

The network is modelled as explicit data: an HTTP call either fails at the
transport level or yields a status code plus a body; the body is either a
parsed JSON value (the platform JSON parser succeeded) or raw unparseable
text.  The single-lookup control flow (`CheckNumber`, from the Go file) and
the batch runner (`checkMultipleNumbers`, from the JavaScript file) are then
ordinary total functions over that data.  The batch runner additionally
returns the ordered trace of externally visible events (lookup calls and
pacing sleeps) so that sequencing and delay placement can be stated.
-/

/-- JSON values, as handed to the client by the platform JSON parser
(`response.json()` in JavaScript, the parse phase of `json.Unmarshal` in Go). -/
inductive JsonVal where
  | null
  | bool (b : Bool)
  | num (n : Int)
  | str (s : String)
  | arr (elems : List JsonVal)
  | obj (fields : List (String × JsonVal))

/-- Field lookup in a JSON object.  Go's `encoding/json` keeps the value of
the last occurrence of a duplicated key, so the lookup prefers later fields. -/
def jsonLookup (fields : List (String × JsonVal)) (key : String) : Option JsonVal :=
  match fields with
  | [] => none
  | (k, v) :: rest =>
    match jsonLookup rest key with
    | some v2 => some v2
    | none => if k = key then some v else none

/-- Unmarshalling of a `string`-typed struct field, following Go's
`encoding/json`: an absent key or a JSON `null` leaves the zero value `""`,
a JSON string is taken verbatim, and any other JSON type is a decode error
(`none`). -/
def getStringField (fields : List (String × JsonVal)) (key : String) : Option String :=
  match jsonLookup fields key with
  | none => some ""
  | some JsonVal.null => some ""
  | some (JsonVal.str s) => some s
  | some _ => none

/-- `WhatsAppMessage` struct of the Go client (file
`whatsapp_realtime_checker_go.go`, lines 28-31). -/
structure WhatsAppMessage where
  number : String
  whatsapp : String
deriving DecidableEq

/-- `WhatsAppResponse` struct of the Go client (lines 21-26): the fixed JSON
envelope of the service.  `message` is a pointer in Go, hence an `Option`. -/
structure WhatsAppResponse where
  status : String
  message : Option WhatsAppMessage
  pricingStrategy : String
  transactionId : String
deriving DecidableEq

/-- `json.Unmarshal` into `WhatsAppMessage`: only a JSON object is accepted,
its `number` and `whatsapp` fields unmarshalled as strings. -/
def unmarshalWhatsAppMessage (j : JsonVal) : Option WhatsAppMessage :=
  match j with
  | JsonVal.obj fields => do
    let number ← getStringField fields "number"
    let whatsapp ← getStringField fields "whatsapp"
    some { number := number, whatsapp := whatsapp }
  | _ => none

/-- `json.Unmarshal` into `WhatsAppResponse`.  A top-level `null` leaves the
zero-valued struct (Go semantics); a non-object otherwise is a decode error;
an absent or `null` `message` field leaves the nil pointer. -/
def unmarshalWhatsAppResponse (j : JsonVal) : Option WhatsAppResponse :=
  match j with
  | JsonVal.null => some { status := "", message := none, pricingStrategy := "", transactionId := "" }
  | JsonVal.obj fields => do
    let status ← getStringField fields "status"
    let pricingStrategy ← getStringField fields "pricingStrategy"
    let transactionId ← getStringField fields "transactionId"
    let message ←
      match jsonLookup fields "message" with
      | none => some none
      | some JsonVal.null => some none
      | some mj => (unmarshalWhatsAppMessage mj).map some
    some { status := status, message := message,
           pricingStrategy := pricingStrategy, transactionId := transactionId }
  | _ => none

/-- Body of an HTTP response: either text the platform JSON parser accepts
(carried as the parsed value) or raw unparseable text. -/
inductive HttpBody where
  | json (j : JsonVal)
  | notJson (raw : String)

/-- Outcome of one HTTP round trip: a transport-level failure (network error
or timeout, before any status code exists) or a status code with a body. -/
inductive HttpOutcome where
  | failure (msg : String)
  | success (statusCode : Nat) (body : HttpBody)

/-- Error taxonomy of the spec: `TransportError` (network failure or non-OK
HTTP status, the latter carrying the status code and the raw body) and
`DecodeError` (2xx reply whose body does not decode as the envelope). -/
inductive LookupError where
  | transportNetwork (msg : String)
  | transportHttp (statusCode : Nat) (body : HttpBody)
  | decodeError

/-- The single `json.Unmarshal(body, &result)` step of the Go client:
fails on unparseable text and on schema mismatch. -/
def decodeBody (body : HttpBody) : Option WhatsAppResponse :=
  match body with
  | HttpBody.json j => unmarshalWhatsAppResponse j
  | HttpBody.notJson _ => none

/-- `CheckNumber` of the Go client (lines 64-102), after the request has been
issued: a transport failure is propagated; a status code other than
`http.StatusOK` (200) becomes an HTTP transport error carrying the code and
the raw body, without any attempt to decode that body; on 200 the body is
unmarshalled, a failure there being a decode error. -/
def CheckNumber (outcome : HttpOutcome) : Except LookupError WhatsAppResponse :=
  match outcome with
  | HttpOutcome.failure msg => Except.error (LookupError.transportNetwork msg)
  | HttpOutcome.success statusCode body =>
    if statusCode ≠ 200 then Except.error (LookupError.transportHttp statusCode body)
    else
      match decodeBody body with
      | none => Except.error LookupError.decodeError
      | some result => Except.ok result

/-- The four enumerated `status` values of the wire protocol (spec section 6
and the README). -/
def statusEnum : List String := ["OK", "FAIL", "INVALID_INPUT", "RETRY_LATER"]

/-- A response as the JavaScript client sees it after `response.json()`:
every field of the envelope may be absent (`undefined`). -/
structure JsMessage where
  number : Option String
  whatsapp : Option String
deriving DecidableEq

/-- JavaScript-side response object with possibly absent fields. -/
structure JsResponse where
  status : Option String
  message : Option JsMessage
  transactionId : Option String
deriving DecidableEq

/-- JavaScript `x || d` on a possibly absent string: an absent value and the
empty string are falsy and give the default. -/
def orFalsy (x : Option String) (d : String) : String :=
  match x with
  | some s => if s = "" then d else s
  | none => d

/-- Double-quoted rendering of a string, for the `JSON.stringify` model. -/
def jsonQuote (s : String) : String := "\"" ++ s ++ "\""

/-- Renders a list of already rendered key/value pairs as a JSON object. -/
def stringifyFields (fields : List (String × String)) : String :=
  "\x7b" ++ String.intercalate "," (fields.map fun f => jsonQuote f.1 ++ ":" ++ f.2) ++ "\x7d"

/-- `JSON.stringify` of a message object: absent (`undefined`) properties are
omitted; fields appear in the envelope's order. -/
def stringifyMessage (m : JsMessage) : String :=
  stringifyFields
    ((match m.number with | some s => [("number", jsonQuote s)] | none => []) ++
     (match m.whatsapp with | some s => [("whatsapp", jsonQuote s)] | none => []))

/-- `JSON.stringify` of a response object: absent properties are omitted;
fields appear in the envelope's order (`status`, `message`, `transactionId`). -/
def stringifyResponse (r : JsResponse) : String :=
  stringifyFields
    ((match r.status with | some s => [("status", jsonQuote s)] | none => []) ++
     (match r.message with | some m => [("message", stringifyMessage m)] | none => []) ++
     (match r.transactionId with | some s => [("transactionId", jsonQuote s)] | none => []))

/-- `formatResult` of the JavaScript client (lines 76-87).  On
`status === 'OK'` it renders `number`, `whatsapp` and `transactionId` with
`message || {}` guarding an absent message and `|| 'Unknown'` / `|| 'N/A'`
substituting falsy fields; otherwise it renders the status (or `Unknown`)
plus the serialized response.  A total function: it never throws. -/
def formatResult (result : JsResponse) : String :=
  if result.status = some "OK" then
    let message := result.message.getD { number := none, whatsapp := none }
    let number := orFalsy message.number "Unknown"
    let whatsappStatus := orFalsy message.whatsapp "Unknown"
    let transactionId := orFalsy result.transactionId "N/A"
    "Number: " ++ number ++ ", WhatsApp: " ++ whatsappStatus ++
      ", Transaction ID: " ++ transactionId
  else
    "Status: " ++ orFalsy result.status "Unknown" ++ ", Error: " ++ stringifyResponse result

/-- One batch item (`NumberData` in Go, the `{number, country, callback}`
objects of the JavaScript client). -/
structure NumberData where
  number : String
  country : String
  callback : Option String
deriving DecidableEq

/-- The `result` property of a JavaScript batch outcome: the response object
on success, the `{error: message}` object on failure. -/
inductive ResultField where
  | ok (response : JsResponse)
  | err (error : String)
deriving DecidableEq

/-- One batch outcome as pushed by the JavaScript `checkMultipleNumbers`
(lines 51-55 and 63-67). -/
structure CheckResult where
  input : NumberData
  result : ResultField
  success : Bool
deriving DecidableEq

/-- Externally visible events of a batch run: the `i`-th lookup call, and a
pacing sleep of `ms` milliseconds. -/
inductive BatchEvent where
  | call (index : Nat) (data : NumberData)
  | sleep (ms : Nat)
deriving DecidableEq

/-- The outcome record built from one lookup result (the two `results.push`
branches of the JavaScript loop). -/
def mkCheckResult (data : NumberData) (r : Except String JsResponse) : CheckResult :=
  match r with
  | Except.ok response => { input := data, result := ResultField.ok response, success := true }
  | Except.error e => { input := data, result := ResultField.err e, success := false }

/-- Body of the JavaScript `checkMultipleNumbers` loop (lines 44-70),
processing the items starting at absolute index `i`.  `check i data` is the
outcome of the `i`-th `this.checkNumber` call.  On success the outcome is
recorded and, when `delay > 0 && i < numbersData.length - 1` (that is, the
remaining list is nonempty), a pacing sleep follows inside the `try`; on
failure the catch branch records the error message and no sleep happens.
Returns the outcome list and the event trace. -/
def checkFrom (check : Nat → NumberData → Except String JsResponse) (delay : Nat) :
    Nat → List NumberData → List CheckResult × List BatchEvent
  | _, [] => ([], [])
  | i, data :: rest =>
    let tail := checkFrom check delay (i + 1) rest
    match check i data with
    | Except.ok result =>
      ({ input := data, result := ResultField.ok result, success := true } :: tail.1,
       BatchEvent.call i data ::
         ((if 0 < delay ∧ rest ≠ [] then [BatchEvent.sleep delay] else []) ++ tail.2))
    | Except.error e =>
      ({ input := data, result := ResultField.err e, success := false } :: tail.1,
       BatchEvent.call i data :: tail.2)

/-- `checkMultipleNumbers` of the JavaScript client (lines 41-73): the whole
batch, sequentially from index 0. -/
def checkMultipleNumbers (check : Nat → NumberData → Except String JsResponse)
    (numbersData : List NumberData) (delay : Nat) :
    List CheckResult × List BatchEvent :=
  checkFrom check delay 0 numbersData

/-- The index of a call event, `none` for a sleep. -/
def eventCallIndex (e : BatchEvent) : Option Nat :=
  match e with
  | BatchEvent.call i _ => some i
  | BatchEvent.sleep _ => none

/-- Trace of a batch as the amended pacing claim words it: for each input, in
order, a call event, followed by one pacing sleep exactly when that call
succeeded, the delay is positive and the call is not the last one. -/
def batchTraceSpec (check : Nat → NumberData → Except String JsResponse) (delay : Nat)
    (l : List NumberData) : List BatchEvent :=
  (l.enum).flatMap fun p =>
    BatchEvent.call p.1 p.2 ::
      (if (check p.1 p.2).isOk = true ∧ 0 < delay ∧ p.1 + 1 < l.length
       then [BatchEvent.sleep delay] else [])

/-- The predicate of the `whatsappYes` / `whatsappNo` filters of the
JavaScript `getStatistics`: `r.result.message && r.result.message.whatsapp === v`. -/
def hasWhatsAppValue (r : CheckResult) (v : String) : Bool :=
  match r.result with
  | ResultField.ok response =>
    match response.message with
    | some m => m.whatsapp == some v
    | none => false
  | ResultField.err _ => false

/-- `CheckStatistics` struct of the Go client (lines 46-52), the object
returned by the JavaScript `getStatistics`. -/
structure CheckStatistics where
  total : Nat
  successful : Nat
  failed : Nat
  whatsappYes : Nat
  whatsappNo : Nat
deriving DecidableEq

/-- `getStatistics` of the JavaScript client (lines 95-112): a pure reducer
over the outcome list. -/
def getStatistics (results : List CheckResult) : CheckStatistics :=
  let successful := (results.filter fun r => r.success).length
  let failed := results.length - successful
  let whatsappYes := (results.filter fun r => r.success && hasWhatsAppValue r "yes").length
  let whatsappNo := (results.filter fun r => r.success && hasWhatsAppValue r "no").length
  { total := results.length, successful := successful, failed := failed,
    whatsappYes := whatsappYes, whatsappNo := whatsappNo }

/-- `validatePhoneNumber` of the JavaScript client (lines 328-331): strips
every non-digit (`replace(/\D/g, '')`) and accepts when 8 to 15 digits
remain.  The `country` argument is never used. -/
def validatePhoneNumber (number country : String) : Bool :=
  let cleanNumber := String.mk (number.data.filter Char.isDigit)
  decide (8 ≤ cleanNumber.length ∧ cleanNumber.length ≤ 15)

/-- `country.toUpperCase()` / `strings.ToUpper(country)`: character-wise
upper-casing of the country code. -/
def toUpperString (s : String) : String :=
  String.mk (s.data.map Char.toUpper)

/-- The form-encoded payload built by `checkNumber` of the JavaScript client
(lines 10-17): `number` verbatim, `country` upper-cased, and `callback`
appended only when a truthy (non-absent, nonempty) callback was supplied. -/
def buildPayload (number country : String) (callback : Option String) :
    List (String × String) :=
  let data := [("number", number), ("country", toUpperString country)]
  match callback with
  | some cb => if cb = "" then data else data ++ [("callback", cb)]
  | none => data

/-- Concrete batch item used by witnesses. -/
def dID : NumberData := { number := "628138800001", country := "ID", callback := none }

/-- Concrete batch item used by witnesses. -/
def dBR : NumberData := { number := "5511999999999", country := "BR", callback := none }

/-- The sample `OK` response of the spec's testable-properties section. -/
def respExample : JsResponse :=
  { status := some "OK",
    message := some { number := some "+628138800001", whatsapp := some "yes" },
    transactionId := some "tphxc6te38gpcoyk8hkvwc" }

/-- An `OK` response with the `message` field absent. -/
def respNoMessage : JsResponse :=
  { status := some "OK", message := none, transactionId := none }

/-- A lookup oracle whose every call fails at the transport level. -/
def alwaysFail : Nat → NumberData → Except String JsResponse :=
  fun _ _ => Except.error "HTTP error! status: 500"

/-- A lookup oracle failing exactly on the first call. -/
def failAtZero : Nat → NumberData → Except String JsResponse :=
  fun i _ => if i = 0 then Except.error "HTTP error! status: 500" else Except.ok respExample

/-- A lookup oracle that always succeeds with the sample response. -/
def alwaysOk : Nat → NumberData → Except String JsResponse :=
  fun _ _ => Except.ok respExample

/-- The 200-status body `{"status":"BOGUS"}`: syntactically valid JSON that
decodes into the envelope struct with a status outside the enumeration. -/
def bogusOutcome : HttpOutcome :=
  HttpOutcome.success 200 (HttpBody.json (JsonVal.obj [("status", JsonVal.str "BOGUS")]))

/-- The outcome list has one entry per input. -/
theorem checkFrom_fst_length (check : Nat → NumberData → Except String JsResponse)
    (delay : Nat) : ∀ (i : Nat) (l : List NumberData),
    (checkFrom check delay i l).1.length = l.length
  | _, [] => rfl
  | i, data :: rest => by
    cases h : check i data <;>
      simp [checkFrom, h, checkFrom_fst_length check delay (i + 1) rest]

/-- The `k`-th outcome is built from the `k`-th input and the result of the
`(i+k)`-th call. -/
theorem checkFrom_fst_getElem (check : Nat → NumberData → Except String JsResponse)
    (delay : Nat) : ∀ (i k : Nat) (l : List NumberData),
    (checkFrom check delay i l).1[k]? = (l[k]?).map fun d => mkCheckResult d (check (i + k) d)
  | _, _, [] => by simp [checkFrom]
  | i, 0, data :: rest => by
    cases h : check i data <;> simp [checkFrom, h, mkCheckResult]
  | i, k + 1, data :: rest => by
    have ih := checkFrom_fst_getElem check delay (i + 1) k rest
    have hadd : i + 1 + k = i + (k + 1) := by omega
    rw [hadd] at ih
    cases h : check i data <;> simp [checkFrom, h, ih]

/-- Every input is the target of a call event in the trace. -/
theorem checkFrom_snd_call_mem (check : Nat → NumberData → Except String JsResponse)
    (delay : Nat) : ∀ (i j : Nat) (d : NumberData) (l : List NumberData),
    l[j]? = some d → BatchEvent.call (i + j) d ∈ (checkFrom check delay i l).2
  | _, j, _, [], h => by simp at h
  | i, 0, d, data :: rest, h => by
    simp only [List.getElem?_cons_zero, Option.some.injEq] at h
    subst h
    cases hc : check i data <;> simp [checkFrom, hc]
  | i, j + 1, d, data :: rest, h => by
    simp only [List.getElem?_cons_succ] at h
    have ih := checkFrom_snd_call_mem check delay (i + 1) j d rest h
    have hadd : i + 1 + j = i + (j + 1) := by omega
    rw [hadd] at ih
    cases hc : check i data <;> simp [checkFrom, hc] <;> exact ih

/-- The indices of the call events of a batch trace, in order. -/
theorem checkFrom_snd_callIndices (check : Nat → NumberData → Except String JsResponse)
    (delay : Nat) : ∀ (i : Nat) (l : List NumberData),
    (checkFrom check delay i l).2.filterMap eventCallIndex = List.range' i l.length
  | _, [] => by simp [checkFrom]
  | i, data :: rest => by
    have ih := checkFrom_snd_callIndices check delay (i + 1) rest
    cases hc : check i data with
    | ok response =>
      by_cases hd : 0 < delay ∧ rest ≠ [] <;>
        simp [checkFrom, hc, hd, ih, eventCallIndex, List.range'_succ, List.filterMap_append]
    | error e =>
      simp [checkFrom, hc, ih, eventCallIndex, List.range'_succ]

/-- The trace of the batch loop, phrased over the enumerated input list:
each item yields its call event, followed by a pacing sleep exactly when the
call succeeded, the delay is positive and the item is not the last one. -/
theorem checkFrom_snd_eq_enumFrom (check : Nat → NumberData → Except String JsResponse)
    (delay : Nat) : ∀ (i : Nat) (l : List NumberData),
    (checkFrom check delay i l).2 =
      (List.enumFrom i l).flatMap fun p =>
        BatchEvent.call p.1 p.2 ::
          (if (check p.1 p.2).isOk = true ∧ 0 < delay ∧ p.1 + 1 < i + l.length
           then [BatchEvent.sleep delay] else [])
  | _, [] => by simp [checkFrom]
  | i, data :: rest => by
    have ih := checkFrom_snd_eq_enumFrom check delay (i + 1) rest
    have hb : i + 1 + rest.length = i + (rest.length + 1) := by omega
    simp only [hb] at ih
    cases hc : check i data with
    | ok response =>
      have hif : (0 < delay ∧ rest ≠ []) ↔
          ((Except.ok response : Except String JsResponse).isOk = true ∧ 0 < delay ∧
            i + 1 < i + (rest.length + 1)) := by
        constructor
        · rintro ⟨h1, h2⟩
          have h3 : 0 < rest.length := List.length_pos.mpr h2
          exact ⟨rfl, h1, by omega⟩
        · rintro ⟨_, h1, h2⟩
          have h3 : 0 < rest.length := by omega
          exact ⟨h1, List.length_pos.mp h3⟩
      simp only [checkFrom, hc, List.enumFrom_cons, List.flatMap_cons, List.length_cons,
        List.cons_append]
      rw [ih, if_congr hif rfl rfl]
    | error e =>
      simp only [checkFrom, hc, List.enumFrom_cons, List.flatMap_cons, List.length_cons,
        List.cons_append]
      rw [ih]
      simp [Except.isOk, Except.toBool]

/-- The built outcome always records the input it came from. -/
theorem mkCheckResult_input (d : NumberData) (r : Except String JsResponse) :
    (mkCheckResult d r).input = d := by
  cases r <;> rfl

/-- A `whatsapp` field cannot equal both `"yes"` and `"no"`. -/
theorem hasWhatsAppValue_yes_no (r : CheckResult) :
    hasWhatsAppValue r "yes" = true → hasWhatsAppValue r "no" = false := by
  rcases r with ⟨input, rf, success⟩
  cases rf with
  | ok response =>
    rcases response with ⟨st, msg, tid⟩
    cases msg with
    | some m =>
      intro h
      have hm : m.whatsapp = some "yes" := by
        have h2 : (m.whatsapp == some "yes") = true := h
        exact eq_of_beq h2
      show (m.whatsapp == some "no") = false
      rw [hm]
      decide
    | none => intro h; exact Bool.noConfusion (show false = true from h)
  | err e => intro h; exact Bool.noConfusion (show false = true from h)

/-- The `yes` and `no` tallies together never exceed the success tally. -/
theorem filter_yes_no_le (l : List CheckResult) :
    (l.filter fun r => r.success && hasWhatsAppValue r "yes").length +
      (l.filter fun r => r.success && hasWhatsAppValue r "no").length ≤
      (l.filter fun r => r.success).length := by
  induction l with
  | nil => simp
  | cons r rest ih =>
    cases hs : r.success with
    | false =>
      simpa [List.filter_cons, hs] using ih
    | true =>
      cases hy : hasWhatsAppValue r "yes" with
      | true =>
        have hn := hasWhatsAppValue_yes_no r hy
        simp [List.filter_cons, hs, hy, hn]
        omega
      | false =>
        cases hn : hasWhatsAppValue r "no" with
        | true =>
          simp [List.filter_cons, hs, hy, hn]
          omega
        | false =>
          simp [List.filter_cons, hs, hy, hn]
          omega

/-- Claim C1: for every ordered list of N lookup requests,
`checkMultipleNumbers` returns exactly N outcomes; the k-th outcome pairs the
k-th input request; and the lookup calls of the trace are issued one at a
time, at indices 0, 1, ..., N-1 in input order. -/
theorem checkMultipleNumbers_outcomes_in_order
    (check : Nat → NumberData → Except String JsResponse)
    (numbersData : List NumberData) (delay : Nat) :
    (checkMultipleNumbers check numbersData delay).1.length = numbersData.length ∧
    (∀ k : Nat, ((checkMultipleNumbers check numbersData delay).1[k]?).map CheckResult.input
      = numbersData[k]?) ∧
    (checkMultipleNumbers check numbersData delay).2.filterMap eventCallIndex
      = List.range numbersData.length := by
  refine ⟨checkFrom_fst_length check delay 0 numbersData, ?_, ?_⟩
  · intro k
    rw [checkMultipleNumbers, checkFrom_fst_getElem check delay 0 k numbersData,
      Option.map_map]
    have hcomp : (CheckResult.input ∘ fun d => mkCheckResult d (check (0 + k) d))
        = fun d => d := by
      funext d
      exact mkCheckResult_input d (check (0 + k) d)
    rw [hcomp]
    cases numbersData[k]? <;> simp
  · rw [checkMultipleNumbers, checkFrom_snd_callIndices check delay 0 numbersData]
    exact (List.range_eq_range' _).symm

/-- Claim C2: a failing lookup at position k does not abort the batch: the
failing item's outcome records the error message as a string with
`success = false`, the batch still returns one outcome per input, and every
item of the batch (in particular every item after position k) is still
attempted, i.e. has its call event in the trace. -/
theorem checkMultipleNumbers_isolates_failure
    (check : Nat → NumberData → Except String JsResponse)
    (numbersData : List NumberData) (delay k : Nat) (d : NumberData) (e : String)
    (hk : numbersData[k]? = some d) (he : check k d = Except.error e) :
    (checkMultipleNumbers check numbersData delay).1.length = numbersData.length ∧
    (checkMultipleNumbers check numbersData delay).1[k]?
      = some { input := d, result := ResultField.err e, success := false } ∧
    (∀ j dj, numbersData[j]? = some dj →
      BatchEvent.call j dj ∈ (checkMultipleNumbers check numbersData delay).2) := by
  refine ⟨checkFrom_fst_length check delay 0 numbersData, ?_, ?_⟩
  · rw [checkMultipleNumbers, checkFrom_fst_getElem check delay 0 k numbersData, hk]
    simp only [Nat.zero_add, Option.map_some', he, mkCheckResult]
  · intro j dj hj
    have h := checkFrom_snd_call_mem check delay 0 j dj numbersData hj
    simpa using h

/-- Claim C2 witness: in a two-item batch whose first call fails with an HTTP
transport error, the failing outcome records the message and the second item
is still attempted. -/
theorem checkMultipleNumbers_isolates_failure_witness :
    ([dID, dBR][0]? = some dID ∧ failAtZero 0 dID = Except.error "HTTP error! status: 500") ∧
    (checkMultipleNumbers failAtZero [dID, dBR] 1000).1[0]?
      = some { input := dID, result := ResultField.err "HTTP error! status: 500",
               success := false } ∧
    BatchEvent.call 1 dBR ∈ (checkMultipleNumbers failAtZero [dID, dBR] 1000).2 := by
  refine ⟨⟨rfl, rfl⟩, ?_, ?_⟩
  · exact (checkMultipleNumbers_isolates_failure failAtZero [dID, dBR] 1000 0 dID
      "HTTP error! status: 500" rfl rfl).2.1
  · exact (checkMultipleNumbers_isolates_failure failAtZero [dID, dBR] 1000 0 dID
      "HTTP error! status: 500" rfl rfl).2.2 1 dBR rfl

/-- Claim C7 counterexample: with a positive delay (1000 ms) and a two-item
batch whose first call fails, the JavaScript loop inserts no pacing sleep at
all: the sleep sits inside the `try` after a successful call, so a failed
call is not followed by a delay, contradicting "regardless of whether the
preceding call succeeded or failed". -/
theorem checkMultipleNumbers_no_sleep_after_failure :
    0 < 1000 ∧
    (checkMultipleNumbers alwaysFail [dID, dBR] 1000).2
      = [BatchEvent.call 0 dID, BatchEvent.call 1 dBR] ∧
    BatchEvent.sleep 1000 ∉ (checkMultipleNumbers alwaysFail [dID, dBR] 1000).2 := by
  exact ⟨by decide, rfl, by decide⟩

/-- Claim C7 (amended): the batch trace consists, for each item in input
order, of its lookup call followed by one pacing sleep exactly when that call
succeeded, the delay is positive, and the call is not the last one — so the
delay is never inserted after the last call, and after a failed call the
delay is skipped along with it. -/
theorem checkMultipleNumbers_trace_spec
    (check : Nat → NumberData → Except String JsResponse)
    (numbersData : List NumberData) (delay : Nat) :
    (checkMultipleNumbers check numbersData delay).2
      = batchTraceSpec check delay numbersData := by
  rw [checkMultipleNumbers, batchTraceSpec]
  have h := checkFrom_snd_eq_enumFrom check delay 0 numbersData
  simpa [List.enum] using h

/-- Claim C3: the statistics of a list of outcomes satisfy `total = length`,
`successful + failed = total`, `whatsappYes + whatsappNo ≤ successful`, and
the `yes`/`no` tallies count exactly the successful outcomes whose response
carries a `whatsapp` field equal to `"yes"`/`"no"` — a successful outcome
with a missing or unexpected `whatsapp` value contributes to neither tally. -/
theorem getStatistics_invariants (results : List CheckResult) :
    (getStatistics results).total = results.length ∧
    (getStatistics results).successful + (getStatistics results).failed
      = (getStatistics results).total ∧
    (getStatistics results).whatsappYes + (getStatistics results).whatsappNo
      ≤ (getStatistics results).successful ∧
    (getStatistics results).whatsappYes
      = results.countP (fun r => r.success && hasWhatsAppValue r "yes") ∧
    (getStatistics results).whatsappNo
      = results.countP (fun r => r.success && hasWhatsAppValue r "no") := by
  refine ⟨rfl, ?_, ?_, ?_, ?_⟩
  · exact Nat.add_sub_cancel' (List.length_filter_le _ _)
  · exact filter_yes_no_le results
  · exact (List.countP_eq_length_filter _ _).symm
  · exact (List.countP_eq_length_filter _ _).symm

/-- Claim C9: `getStatistics` is permutation-invariant — it depends only on
the multiset of outcomes, not on their order. -/
theorem getStatistics_perm_invariant (results1 results2 : List CheckResult)
    (h : results1.Perm results2) :
    getStatistics results1 = getStatistics results2 := by
  simp only [getStatistics]
  rw [h.length_eq, (h.filter fun r => r.success).length_eq,
    (h.filter fun r => r.success && hasWhatsAppValue r "yes").length_eq,
    (h.filter fun r => r.success && hasWhatsAppValue r "no").length_eq]

/-- Claim C9 witness: swapping the two outcomes of a concrete batch leaves
the statistics unchanged. -/
theorem getStatistics_perm_invariant_witness :
    ([mkCheckResult dID (Except.ok respExample),
      mkCheckResult dBR (Except.error "HTTP error! status: 500")].Perm
      [mkCheckResult dBR (Except.error "HTTP error! status: 500"),
       mkCheckResult dID (Except.ok respExample)]) ∧
    getStatistics
        [mkCheckResult dID (Except.ok respExample),
         mkCheckResult dBR (Except.error "HTTP error! status: 500")]
      = getStatistics
        [mkCheckResult dBR (Except.error "HTTP error! status: 500"),
         mkCheckResult dID (Except.ok respExample)] :=
  ⟨List.Perm.swap (mkCheckResult dBR (Except.error "HTTP error! status: 500"))
      (mkCheckResult dID (Except.ok respExample)) [],
   getStatistics_perm_invariant _ _
     (List.Perm.swap (mkCheckResult dBR (Except.error "HTTP error! status: 500"))
       (mkCheckResult dID (Except.ok respExample)) [])⟩

/-- Claim C10: `validatePhoneNumber` ignores its country argument entirely
and accepts exactly when the count of decimal digits left after stripping
non-digits lies between 8 and 15 inclusive. -/
theorem validatePhoneNumber_ignores_country (number c1 c2 : String) :
    validatePhoneNumber number c1 = validatePhoneNumber number c2 ∧
    (validatePhoneNumber number c1 = true ↔
      8 ≤ (number.data.filter Char.isDigit).length ∧
        (number.data.filter Char.isDigit).length ≤ 15) := by
  constructor
  · rfl
  · simp [validatePhoneNumber, String.length]

/-- Claim C10 witness: a 12-digit number validates identically under two
different country arguments, and validates positively. -/
theorem validatePhoneNumber_ignores_country_witness :
    validatePhoneNumber "628138800001" "ID" = validatePhoneNumber "628138800001" "xx" ∧
    validatePhoneNumber "628138800001" "ID" = true :=
  ⟨(validatePhoneNumber_ignores_country "628138800001" "ID" "xx").1,
   (validatePhoneNumber_ignores_country "628138800001" "ID" "xx").2.mpr (by decide)⟩

/-- Claim C8: the outgoing form payload always contains the `number` field
verbatim and the `country` field upper-cased, and contains a `callback`
field exactly when a non-empty callback was supplied. -/
theorem buildPayload_fields (number country : String) (callback : Option String) :
    ("number", number) ∈ buildPayload number country callback ∧
    ("country", toUpperString country) ∈ buildPayload number country callback ∧
    ((∃ v, ("callback", v) ∈ buildPayload number country callback) ↔
      ∃ cb, callback = some cb ∧ cb ≠ "") := by
  cases callback with
  | none =>
    simp only [buildPayload]
    refine ⟨by simp, by simp, ?_⟩
    constructor
    · rintro ⟨v, hv⟩
      simp [Prod.ext_iff] at hv
    · rintro ⟨cb, hcb, _⟩
      exact Option.noConfusion hcb
  | some cb =>
    simp only [buildPayload]
    by_cases h : cb = ""
    · subst h
      simp only [if_pos rfl]
      refine ⟨by simp, by simp, ?_⟩
      constructor
      · rintro ⟨v, hv⟩
        simp [Prod.ext_iff] at hv
      · rintro ⟨cb2, hcb, hne⟩
        have h2 : cb2 = "" := (Option.some.injEq _ _ ▸ hcb).symm
        exact absurd h2 hne
    · rw [if_neg h]
      refine ⟨by simp, by simp, ?_⟩
      exact iff_of_true ⟨cb, by simp⟩ ⟨cb, rfl, h⟩

/-- Claim C8 witness: for country `"id"` the payload carries `("country",
"ID")`; with no callback no `callback` field exists; with a non-empty
callback the field is present. -/
theorem buildPayload_fields_witness :
    ("country", "ID") ∈ buildPayload "628138800001" "id" none ∧
    (¬ ∃ v, ("callback", v) ∈ buildPayload "628138800001" "id" none) ∧
    ("callback", "https://example.com/cb") ∈
      buildPayload "628138800001" "id" (some "https://example.com/cb") := by
  refine ⟨?_, ?_, ?_⟩
  · have h := (buildPayload_fields "628138800001" "id" none).2.1
    have e : toUpperString "id" = "ID" := by decide
    rw [e] at h
    exact h
  · intro hex
    rcases (buildPayload_fields "628138800001" "id" none).2.2.mp hex with ⟨cb, hcb, _⟩
    exact Option.noConfusion hcb
  · decide

/-- Claim C4 counterexample: a 200 reply whose JSON body is
`{"status":"BOGUS"}` decodes without error, so `CheckNumber` neither fails
nor returns one of the four enumerated status values — the client performs
no validation of the `status` field. -/
theorem CheckNumber_status_not_validated :
    CheckNumber bogusOutcome
      = Except.ok { status := "BOGUS", message := none,
                    pricingStrategy := "", transactionId := "" } ∧
    "BOGUS" ∉ statusEnum := by
  exact ⟨rfl, by decide⟩

/-- Claim C4 (amended): for every HTTP outcome, `CheckNumber` either fails
with a `TransportError` (network or non-OK status) or a `DecodeError`, or
returns the `LookupResponse` decoded in full from the 200 JSON body — never
a partially-populated ambiguous state.  The `status` field is passed through
from the body without validation, so it is one of the four enumerated values
exactly when the body's is. -/
theorem CheckNumber_complete_or_error (o : HttpOutcome) :
    (∃ m, CheckNumber o = Except.error (LookupError.transportNetwork m)) ∨
    (∃ code body, CheckNumber o = Except.error (LookupError.transportHttp code body)) ∨
    CheckNumber o = Except.error LookupError.decodeError ∨
    (∃ j r, o = HttpOutcome.success 200 (HttpBody.json j) ∧
      unmarshalWhatsAppResponse j = some r ∧ CheckNumber o = Except.ok r) := by
  cases o with
  | failure msg => exact Or.inl ⟨msg, rfl⟩
  | success code body =>
    by_cases hc : code = 200
    · subst hc
      cases body with
      | notJson raw =>
        refine Or.inr (Or.inr (Or.inl ?_))
        simp [CheckNumber, decodeBody]
      | json j =>
        cases hj : unmarshalWhatsAppResponse j with
        | none =>
          refine Or.inr (Or.inr (Or.inl ?_))
          simp [CheckNumber, decodeBody, hj]
        | some r =>
          refine Or.inr (Or.inr (Or.inr ⟨j, r, rfl, hj, ?_⟩))
          simp [CheckNumber, decodeBody, hj]
    · exact Or.inr (Or.inl ⟨code, body, by simp [CheckNumber, hc]⟩)

/-- Claim C5: on a status outside the 2xx range `CheckNumber` fails with the
HTTP transport error carrying the status code and the raw body, never
interpreting that body as the envelope; a response value is only ever
produced from a 2xx status with a body that unmarshals, and on status 200 a
body that fails to decode surfaces as the distinct `DecodeError`. -/
theorem CheckNumber_non2xx_transport (code : Nat) (body : HttpBody) :
    (¬ (200 ≤ code ∧ code ≤ 299) →
      CheckNumber (HttpOutcome.success code body)
        = Except.error (LookupError.transportHttp code body)) ∧
    (∀ r, CheckNumber (HttpOutcome.success code body) = Except.ok r →
      (200 ≤ code ∧ code ≤ 299) ∧
        ∃ j, body = HttpBody.json j ∧ unmarshalWhatsAppResponse j = some r) ∧
    (code = 200 → decodeBody body = none →
      CheckNumber (HttpOutcome.success code body) = Except.error LookupError.decodeError) := by
  refine ⟨?_, ?_, ?_⟩
  · intro h
    have hc : code ≠ 200 := by omega
    simp [CheckNumber, hc]
  · intro r hr
    by_cases hc : code = 200
    · subst hc
      refine ⟨⟨le_refl _, by omega⟩, ?_⟩
      cases body with
      | notJson raw => simp [CheckNumber, decodeBody] at hr
      | json j =>
        cases hj : unmarshalWhatsAppResponse j with
        | none => simp [CheckNumber, decodeBody, hj] at hr
        | some r2 =>
          simp only [CheckNumber, decodeBody, hj] at hr
          refine ⟨j, rfl, ?_⟩
          rw [hj]
          simp at hr
          rw [hr]
    · simp [CheckNumber, hc] at hr
  · intro hc hd
    subst hc
    simp [CheckNumber, hd]

/-- Claim C5 witness: a 404 with a non-JSON body fails with the transport
error carrying code and body, and a 200 with an undecodable body fails with
the decode error. -/
theorem CheckNumber_non2xx_transport_witness :
    (¬ (200 ≤ 404 ∧ 404 ≤ 299)) ∧
    CheckNumber (HttpOutcome.success 404 (HttpBody.notJson "Server Error"))
      = Except.error (LookupError.transportHttp 404 (HttpBody.notJson "Server Error")) ∧
    CheckNumber (HttpOutcome.success 200 (HttpBody.notJson "Server Error"))
      = Except.error LookupError.decodeError := by
  refine ⟨by decide, ?_, ?_⟩
  · exact (CheckNumber_non2xx_transport 404 (HttpBody.notJson "Server Error")).1 (by decide)
  · exact (CheckNumber_non2xx_transport 200 (HttpBody.notJson "Server Error")).2.2 rfl rfl

/-- Claim C6: `formatResult` is total (it never throws).  When
`status == "OK"` it renders the three fields with `"Unknown"` substituted
for a missing or empty `number`/`whatsapp` (in particular when the whole
`message` is missing) and `"N/A"` for a missing `transactionId`; otherwise
it renders the status (or `"Unknown"`) plus the serialized response as a
diagnostic string. -/
theorem formatResult_renders (r : JsResponse) :
    (r.status = some "OK" → r.message = none →
      formatResult r
        = "Number: Unknown, WhatsApp: Unknown, Transaction ID: "
            ++ orFalsy r.transactionId "N/A") ∧
    (∀ m, r.status = some "OK" → r.message = some m →
      formatResult r
        = "Number: " ++ orFalsy m.number "Unknown"
            ++ ", WhatsApp: " ++ orFalsy m.whatsapp "Unknown"
            ++ ", Transaction ID: " ++ orFalsy r.transactionId "N/A") ∧
    (r.status ≠ some "OK" →
      formatResult r = "Status: " ++ orFalsy r.status "Unknown"
        ++ ", Error: " ++ stringifyResponse r) := by
  refine ⟨?_, ?_, ?_⟩
  · intro hs hm
    simp [formatResult, hs, hm, orFalsy]
  · intro m hs hm
    simp [formatResult, hs, hm]
  · intro hs
    simp [formatResult, hs]

/-- Claim C6 witness: the spec's sample `OK` response renders exactly its
three fields, and an `OK` response with no `message` renders the `Unknown`
and `N/A` substitutions without failing. -/
theorem formatResult_renders_witness :
    respExample.status = some "OK" ∧
    formatResult respExample
      = "Number: +628138800001, WhatsApp: yes, Transaction ID: tphxc6te38gpcoyk8hkvwc" ∧
    formatResult respNoMessage
      = "Number: Unknown, WhatsApp: Unknown, Transaction ID: N/A" := by
  refine ⟨rfl, ?_, ?_⟩
  · exact ((formatResult_renders respExample).2.1
      { number := some "+628138800001", whatsapp := some "yes" } rfl rfl).trans (by decide)
  · exact ((formatResult_renders respNoMessage).1 rfl rfl).trans (by decide)
